import Mathlib

/-!
# Album service (`main.go`)

A shallow embedding of the three gin handlers of `main.go` (`postAlbum`,
`getAlbumByID`, `getAlbumsByArtist`) and their helpers (`albumByID`, `addAlbum`),
together with the library calls they depend on: `strconv.ParseInt`, the
`database/sql` handle `db`, and the `gin.Context`.
-/

namespace AlbumService

/-! ## strconv.ParseInt(s, 10, 64)

Strings are read as their list of characters.  Go iterates over bytes; every byte of a
non-ASCII character is at least 128 and falls in the default branch of the digit switch,
exactly as the character itself does here.
-/

/-- The two failure kinds carried by a `strconv.NumError`. -/
inductive NumError
  | ErrSyntax
  | ErrRange
  deriving DecidableEq, Repr

/-- Largest `uint64`. -/
def maxUint64 : Nat := 2 ^ 64 - 1

/-- Go: `lower(c) = c | ('x' - 'X')`. -/
def lower (c : Nat) : Nat := c ||| 32

/-- The digit switch of the `ParseUint` loop: `'0'..'9'` give `c - '0'`, letters give
`lower(c) - 'a' + 10`, everything else is the default branch (`none`). -/
def digitOf (c : Char) : Option Nat :=
  if 48 ≤ c.toNat ∧ c.toNat ≤ 57 then some (c.toNat - 48)
  else if 97 ≤ lower c.toNat ∧ lower c.toNat ≤ 122 then some (lower c.toNat - 97 + 10)
  else none

/-- The loop of `ParseUint` for base 10 and bit size 64, with `n` the accumulator.
The result is Go's pair `(value, err)`. -/
def ParseUintLoop : List Char → Nat → Nat × Option NumError
  | [], n => (n, none)
  | c :: cs, n =>
    match digitOf c with
    | none => (0, some NumError.ErrSyntax)
    | some d =>
      if d ≥ 10 then (0, some NumError.ErrSyntax)
      else if n ≥ maxUint64 / 10 + 1 then (maxUint64, some NumError.ErrRange)
      else
        let n10 := (n * 10) % 2 ^ 64
        let n1 := (n10 + d) % 2 ^ 64
        if n1 < n10 ∨ n1 > maxUint64 then (maxUint64, some NumError.ErrRange)
        else ParseUintLoop cs n1

/-- Go `strconv.ParseUint(s, 10, 64)`. -/
def ParseUint (s : List Char) : Nat × Option NumError :=
  if s = [] then (0, some NumError.ErrSyntax) else ParseUintLoop s 0

/-- Conversion to `int64` (two's complement wrap-around). -/
def wrapInt64 (x : Int) : Int := (x + 2 ^ 63) % 2 ^ 64 - 2 ^ 63

/-- Go `strconv.ParseInt(s, 10, 64)`, as the pair `(value, err)`. -/
def ParseInt (s : String) : Int × Option NumError :=
  match s.toList with
  | [] => (0, some NumError.ErrSyntax)
  | c :: rest =>
    let neg : Bool := if c = '+' then false else if c = '-' then true else false
    let body : List Char := if c = '+' then rest else if c = '-' then rest else c :: rest
    match ParseUint body with
    | (_, some NumError.ErrSyntax) => (0, some NumError.ErrSyntax)
    | (un, _) =>
      if neg = false ∧ un ≥ 2 ^ 63 then (2 ^ 63 - 1, some NumError.ErrRange)
      else if neg = true ∧ un > 2 ^ 63 then (-(2 ^ 63), some NumError.ErrRange)
      else
        let n := wrapInt64 un
        (if neg then wrapInt64 (-n) else n, none)

/-- The part of `ParseInt` after the sign has been picked off (the same code as in
`ParseInt`, named so that lemmas can speak of it). -/
def ParseIntTail (neg : Bool) (r : Nat × Option NumError) : Int × Option NumError :=
  match r with
  | (_, some NumError.ErrSyntax) => (0, some NumError.ErrSyntax)
  | (un, _) =>
    if neg = false ∧ un ≥ 2 ^ 63 then (2 ^ 63 - 1, some NumError.ErrRange)
    else if neg = true ∧ un > 2 ^ 63 then (-(2 ^ 63), some NumError.ErrRange)
    else
      let n := wrapInt64 un
      (if neg then wrapInt64 (-n) else n, none)

/-! ### Decimal text (specification side) -/

/-- Value of a digit string read in base 10, continuing from `n`. -/
def decimalFrom (n : Nat) (ds : List Char) : Nat :=
  ds.foldl (fun v c => 10 * v + (c.toNat - 48)) n

/-- The text `s` is a base-10 signed 64-bit integer with value `v`: an optional sign
followed by one or more decimal digits, whose value lies in `[-2^63, 2^63 - 1]`. -/
def DecimalInt64 (s : String) (v : Int) : Prop :=
  ∃ sign ds : List Char,
    s.toList = sign ++ ds ∧ (sign = [] ∨ sign = ['+'] ∨ sign = ['-']) ∧
    ds ≠ [] ∧ (∀ c ∈ ds, c.isDigit = true) ∧
    v = (if sign = ['-'] then -(decimalFrom 0 ds : Int) else (decimalFrom 0 ds : Int)) ∧
    -(2 ^ 63) ≤ v ∧ v < 2 ^ 63

/-- Decimal digits of `u`, most significant first (the loop of Go's `formatBits` for
base 10); `fuel` bounds the number of digits. -/
def formatDigits : Nat → Nat → List Char → List Char
  | 0, _, acc => acc
  | fuel + 1, u, acc =>
    if u ≥ 10 then formatDigits fuel (u / 10) (Char.ofNat (u % 10 + 48) :: acc)
    else Char.ofNat (u + 48) :: acc

/-- Go `strconv.FormatInt(i, 10)` for a 64-bit `i` (also what `%d` prints). -/
def FormatInt (i : Int) : String :=
  String.mk ((if i < 0 then ['-'] else []) ++ formatDigits 20 i.natAbs [])

/-! ## Data model, errors, `database/sql` and `gin` -/

/-- Go `type Album struct`.  `Price` is a `float32`; it is carried as its IEEE-754 bit
pattern, since the handlers only copy it. -/
structure Album where
  ID : Int
  Title : String
  Artist : String
  Price : Nat
  deriving DecidableEq, Repr

/-- Go error values: the sentinel `sql.ErrNoRows`, an error made of text only
(`errors.New`, `fmt.Errorf` with `%v`), and an error that wraps another one. -/
inductive GoError
  | ErrNoRows
  | text (msg : String)
  | wrap (msg : String) (inner : GoError)
  deriving DecidableEq, Repr

/-- Go `err.Error()`. -/
def GoError.Error : GoError → String
  | GoError.ErrNoRows => "sql: no rows in result set"
  | GoError.text msg => msg
  | GoError.wrap msg _ => msg

/-- Go `errors.Is(err, target)`: `err` or an error in its `Unwrap` chain equals `target`. -/
def errorsIs (err target : GoError) : Bool :=
  if err = target then true
  else
    match err with
    | GoError.wrap _ inner => errorsIs inner target
    | _ => false

deriving instance DecidableEq for Except

/-- Arguments bound to the `?` placeholders of a statement. -/
inductive Value
  | int (i : Int)
  | text (s : String)
  | float (bits : Nat)
  deriving DecidableEq, Repr

/-- Go `*sql.Rows` after a successful `db.Query`: `scans` holds, for each row for which
`rows.Next()` returns true, the outcome of `rows.Scan(&alb.ID, &alb.Title, &alb.Artist,
&alb.Price)`; `Err` is what `rows.Err()` returns once `Next` has returned false. -/
structure Rows where
  scans : List (Except GoError Album)
  Err : Option GoError
  deriving DecidableEq

/-- Go `*sql.Row`: the outcome of `row.Scan(&alb.ID, &alb.Title, &alb.Artist, &alb.Price)`. -/
structure Row where
  Scan : Except GoError Album
  deriving DecidableEq

/-- Go `sql.Result` of a successful `db.Exec`. -/
structure Result where
  LastInsertId : Except GoError Int
  deriving DecidableEq

/-- The global `db *sql.DB`, as the three methods the service calls.  `σ` is the state of
the store behind the handle; each call may change it. -/
structure DB (σ : Type) where
  Query : σ → String → List Value → σ × Except GoError Rows
  QueryRow : σ → String → List Value → σ × Row
  Exec : σ → String → List Value → σ × Except GoError Result

/-- One call made on `db`, with the statement text and the bound arguments. -/
inductive Call
  | Query (query : String) (args : List Value)
  | QueryRow (query : String) (args : List Value)
  | Exec (query : String) (args : List Value)
  deriving DecidableEq, Repr

/-- What is passed to `c.IndentedJSON`: a `gin.H` map, an `Album` or an `[]Album`. -/
inductive Body
  | H (fields : List (String × String))
  | album (a : Album)
  | albums (l : List Album)
  deriving DecidableEq, Repr

/-- One `c.IndentedJSON(code, obj)`. -/
structure Response where
  code : Nat
  obj : Body
  deriving DecidableEq, Repr

/-- The request side of a `*gin.Context`: the path parameters, and the outcome of
`c.BindJSON(&newAlbum)` on the request body (on an error gin itself sets the status 400,
the status the handler then writes). -/
structure Context where
  Param : String → String
  BindJSON : Except GoError Album

/-- Everything a handler can change: the store behind `db`, the calls made on `db`, the
lines given to `log.Printf`, and the responses written with `c.IndentedJSON`. -/
structure World (σ : Type) where
  store : σ
  calls : List Call
  log : List String
  written : List Response

/-- The world at the start of a request. -/
def World.start {σ : Type} (st : σ) : World σ := ⟨st, [], [], []⟩

/-- Go `c.IndentedJSON(code, obj)`. -/
def World.IndentedJSON {σ : Type} (w : World σ) (code : Nat) (obj : Body) : World σ :=
  { w with written := w.written ++ [⟨code, obj⟩] }

/-- Go `log.Printf`, with the formatted line. -/
def World.Printf {σ : Type} (w : World σ) (line : String) : World σ :=
  { w with log := w.log ++ [line] }

/-- Go `db.Query(query, args...)`. -/
def World.Query {σ : Type} (w : World σ) (db : DB σ) (query : String) (args : List Value) :
    Except GoError Rows × World σ :=
  ((db.Query w.store query args).2,
    { w with store := (db.Query w.store query args).1,
             calls := w.calls ++ [Call.Query query args] })

/-- Go `db.QueryRow(query, args...)`. -/
def World.QueryRow {σ : Type} (w : World σ) (db : DB σ) (query : String) (args : List Value) :
    Row × World σ :=
  ((db.QueryRow w.store query args).2,
    { w with store := (db.QueryRow w.store query args).1,
             calls := w.calls ++ [Call.QueryRow query args] })

/-- Go `db.Exec(query, args...)`. -/
def World.Exec {σ : Type} (w : World σ) (db : DB σ) (query : String) (args : List Value) :
    Except GoError Result × World σ :=
  ((db.Exec w.store query args).2,
    { w with store := (db.Exec w.store query args).1,
             calls := w.calls ++ [Call.Exec query args] })

/-! ## The service -/

/-- Go `albumByID`. -/
def albumByID {σ : Type} (db : DB σ) (id : Int) (w : World σ) : Except GoError Album × World σ :=
  match w.QueryRow db "SELECT * FROM album WHERE id = ?" [Value.int id] with
  | (row, w) =>
    match row.Scan with
    | Except.error err =>
      if err = GoError.ErrNoRows then (Except.error GoError.ErrNoRows, w)
      else (Except.error (GoError.text ("albumByID " ++ FormatInt id ++ ": " ++ err.Error)), w)
    | Except.ok alb => (Except.ok alb, w)

/-- Go `addAlbum`. -/
def addAlbum {σ : Type} (db : DB σ) (alb : Album) (w : World σ) : Except GoError Int × World σ :=
  match w.Exec db "INSERT INTO album (title, artist, price) VALUES (?, ?, ?)"
      [Value.text alb.Title, Value.text alb.Artist, Value.float alb.Price] with
  | (Except.error err, w) => (Except.error (GoError.text ("addAlbum: " ++ err.Error)), w)
  | (Except.ok result, w) =>
    match result.LastInsertId with
    | Except.error err => (Except.error (GoError.text ("addAlbum: " ++ err.Error)), w)
    | Except.ok id => (Except.ok id, w)

/-- Go `postAlbum`. -/
def postAlbum {σ : Type} (db : DB σ) (c : Context) (w : World σ) : World σ :=
  match c.BindJSON with
  | Except.error _ => w.IndentedJSON 400 (Body.H [("message", "invalid JSON format")])
  | Except.ok newAlbum =>
    match addAlbum db newAlbum w with
    | (Except.error err, w) =>
      (w.Printf ("Error adding album: " ++ err.Error)).IndentedJSON 500
        (Body.H [("message", "could not add album")])
    | (Except.ok id, w) => w.IndentedJSON 201 (Body.album { newAlbum with ID := id })

/-- Go `getAlbumByID`. -/
def getAlbumByID {σ : Type} (db : DB σ) (c : Context) (w : World σ) : World σ :=
  match ParseInt (c.Param "id") with
  | (_, some _) => w.IndentedJSON 400 (Body.H [("message", "invalid album ID")])
  | (id, none) =>
    match albumByID db id w with
    | (Except.error err, w) =>
      if errorsIs err GoError.ErrNoRows then
        w.IndentedJSON 404 (Body.H [("message", "album not found")])
      else
        (w.Printf ("Error getting album by ID: " ++ err.Error)).IndentedJSON 500
          (Body.H [("message", "database error")])
    | (Except.ok album, w) => w.IndentedJSON 200 (Body.album album)

/-- The loop `for rows.Next() { ... rows.Scan ... albums = append(albums, alb) }` of
`getAlbumsByArtist`: the first failing `Scan` leaves the loop with its error. -/
def scanLoop : List (Except GoError Album) → List Album → Except GoError (List Album)
  | [], albums => Except.ok albums
  | Except.error err :: _, _ => Except.error err
  | Except.ok alb :: rest, albums => scanLoop rest (albums ++ [alb])

/-- Go `getAlbumsByArtist`. -/
def getAlbumsByArtist {σ : Type} (db : DB σ) (c : Context) (w : World σ) : World σ :=
  match w.Query db ("SELECT * FROM album WHERE artist ='" ++ c.Param "artist" ++ "'") [] with
  | (Except.error err, w) =>
    (w.Printf ("Error querying database: " ++ err.Error)).IndentedJSON 500
      (Body.H [("message", "database query error")])
  | (Except.ok rows, w) =>
    match scanLoop rows.scans [] with
    | Except.error err =>
      (w.Printf ("Error scanning row: " ++ err.Error)).IndentedJSON 500
        (Body.H [("message", "error processing results")])
    | Except.ok albums =>
      match rows.Err with
      | some err =>
        (w.Printf ("Error iterating rows: " ++ err.Error)).IndentedJSON 500
          (Body.H [("message", "error processing results")])
      | none =>
        if albums.length = 0 then
          w.IndentedJSON 404 (Body.H [("message", "no albums found for artist")])
        else w.IndentedJSON 200 (Body.albums albums)

/-! ## The store behind `db`

`main.go` talks to a MySQL table `album(id, title, artist, price)` whose `id` is the
auto-assigned primary key.  `ServesAlbumTable` is the contract of that table for the two
parameterised statements; `albumTable` is a reference store that meets it and that reads
the text of a `SELECT ... WHERE artist ='...'` statement the way MySQL reads a string
literal.
-/

/-- The store `db` keeps a table of albums, seen through `table`: the by-id statement
answers with the row of that id or with `sql.ErrNoRows`, and a successful insert appends
one row carrying the bound title, artist and price under an id no earlier row has. -/
structure ServesAlbumTable {σ : Type} (db : DB σ) (table : σ → List Album) : Prop where
  lookup : ∀ st id,
    (db.QueryRow st "SELECT * FROM album WHERE id = ?" [Value.int id]).2.Scan =
      match (table st).find? (fun r => decide (r.ID = id)) with
      | some r => Except.ok r
      | none => Except.error GoError.ErrNoRows
  insert : ∀ st title artist price st' id,
    db.Exec st "INSERT INTO album (title, artist, price) VALUES (?, ?, ?)"
        [Value.text title, Value.text artist, Value.float price] =
      (st', Except.ok ⟨Except.ok id⟩) →
    table st' = table st ++ [⟨id, title, artist, price⟩] ∧ ∀ r ∈ table st, r.ID ≠ id

/-- The single quote. -/
def quote : Char := Char.ofNat 39

/-- The backslash. -/
def backslash : Char := Char.ofNat 92

/-- MySQL escape sequences inside a string literal: the text that a backslash followed by
`c` stands for. -/
def unescape (c : Char) : List Char :=
  if c = '0' then [Char.ofNat 0]
  else if c = 'b' then [Char.ofNat 8]
  else if c = 'n' then [Char.ofNat 10]
  else if c = 'r' then [Char.ofNat 13]
  else if c = 't' then [Char.ofNat 9]
  else if c = 'Z' then [Char.ofNat 26]
  else if c = '%' then [backslash, '%']
  else if c = '_' then [backslash, '_']
  else [c]

/-- Reads a MySQL string literal after its opening quote: the value of the literal and the
text left after the closing quote, or `none` when the literal is not closed.  Two quotes in
a row stand for one quote; a backslash escapes the next character. -/
def readLiteral : List Char → List Char → Option (List Char × List Char)
  | [], _ => none
  | [c], acc => if c = quote then some (acc, []) else none
  | c :: d :: cs, acc =>
    if c = quote then
      if d = quote then readLiteral cs (acc ++ [quote]) else some (acc, d :: cs)
    else if c = backslash then readLiteral cs (acc ++ unescape d)
    else readLiteral (d :: cs) (acc ++ [c])

/-- Drops `head` from the front of `text`, when `text` starts with it. -/
def dropHead : List Char → List Char → Option (List Char)
  | [], text => some text
  | _ :: _, [] => none
  | h :: head, t :: text => if h = t then dropHead head text else none

/-- The literal `x` of a statement that reads `SELECT * FROM album WHERE artist ='x'` and
nothing more; `none` for any other text. -/
def artistLiteral (query : String) : Option String :=
  match dropHead "SELECT * FROM album WHERE artist =".toList query.toList with
  | some (q :: rest) =>
    if q = quote then
      match readLiteral rest [] with
      | some (lit, []) => some (String.mk lit)
      | _ => none
    else none
  | _ => none

/-- The id an insert assigns: one more than the largest id in the table (1 when empty). -/
def nextID (tbl : List Album) : Int := 1 + tbl.foldl (fun m r => max m r.ID) 0

/-- The MySQL syntax error, as the driver reports it. -/
def syntaxError : GoError := GoError.text "Error 1064 (42000): You have an error in your SQL syntax"

/-- Reference store: the table is a list of rows, in insertion order.  It runs the three
statement shapes of `main.go` and rejects every other statement text as a syntax error. -/
def albumTable : DB (List Album) where
  Query tbl query args :=
    (tbl,
      match artistLiteral query, args with
      | some lit, [] =>
        Except.ok ⟨(tbl.filter (fun r => decide (r.Artist = lit))).map Except.ok, none⟩
      | _, _ => Except.error syntaxError)
  QueryRow tbl query args :=
    (tbl,
      ⟨if query = "SELECT * FROM album WHERE id = ?" then
        match args with
        | [Value.int id] =>
          match tbl.find? (fun r => decide (r.ID = id)) with
          | some r => Except.ok r
          | none => Except.error GoError.ErrNoRows
        | _ => Except.error (GoError.text "sql: wrong number of arguments")
      else Except.error syntaxError⟩)
  Exec tbl query args :=
    if query = "INSERT INTO album (title, artist, price) VALUES (?, ?, ?)" then
      match args with
      | [Value.text title, Value.text artist, Value.float price] =>
        if nextID tbl < 2 ^ 63 then
          (tbl ++ [⟨nextID tbl, title, artist, price⟩], Except.ok ⟨Except.ok (nextID tbl)⟩)
        else (tbl, Except.error (GoError.text "Error 1467 (HY000): Failed to read auto-increment value"))
      | _ => (tbl, Except.error (GoError.text "sql: wrong number of arguments"))
    else (tbl, Except.error syntaxError)

/-- The reference store with a price column that converts the bound price with `column`
before it stores it, as a `DECIMAL(5,2)` column does when it rounds to two decimals. -/
def columnTable (column : Nat → Nat) : DB (List Album) where
  Query := albumTable.Query
  QueryRow := albumTable.QueryRow
  Exec tbl query args :=
    match args with
    | [Value.text title, Value.text artist, Value.float price] =>
      albumTable.Exec tbl query [Value.text title, Value.text artist, Value.float (column price)]
    | _ => albumTable.Exec tbl query args

/-- Rounding to two decimals, at the one price used below: the `float32` 9.999 (bits
`0x411FFBE7`) becomes 10.00 (bits `0x41200000`); no other price is converted here. -/
def twoDecimals (bits : Nat) : Nat := if bits = 1092615143 then 1092616192 else bits

/-- A store that answers every call with a fixed outcome, whatever the statement. -/
def fixedDB (q : Except GoError Rows) (r : Row) (x : Except GoError Result) : DB Unit where
  Query st _ _ := (st, q)
  QueryRow st _ _ := (st, r)
  Exec st _ _ := (st, x)

/-- A request whose path parameters all read `p` and whose body binds as `b`. -/
def request (p : String) (b : Except GoError Album) : Context := ⟨fun _ => p, b⟩

/-! ### Lemmas on the parser -/

theorem isDigit_iff (c : Char) : c.isDigit = true ↔ 48 ≤ c.toNat ∧ c.toNat ≤ 57 := by
  simp only [Char.isDigit, Char.toNat, ge_iff_le, Bool.and_eq_true, decide_eq_true_eq]
  exact Iff.rfl

theorem decimalFrom_cons (n : Nat) (c : Char) (cs : List Char) :
    decimalFrom n (c :: cs) = decimalFrom (10 * n + (c.toNat - 48)) cs := rfl

theorem le_decimalFrom (cs : List Char) : ∀ n, n ≤ decimalFrom n cs := by
  induction cs with
  | nil => intro n; exact le_refl n
  | cons c cs ih =>
    intro n
    rw [decimalFrom_cons]
    exact le_trans (by omega) (ih _)

theorem digitOf_digit (c : Char) (h : 48 ≤ c.toNat ∧ c.toNat ≤ 57) :
    digitOf c = some (c.toNat - 48) := by
  simp [digitOf, h]

theorem digitOf_lt_ten (c : Char) (d : Nat) (h : digitOf c = some d) (hd : d < 10) :
    (48 ≤ c.toNat ∧ c.toNat ≤ 57) ∧ d = c.toNat - 48 := by
  unfold digitOf at h
  split_ifs at h with h1 h2
  · simp only [Option.some.injEq] at h
    exact ⟨h1, h.symm⟩
  · simp only [Option.some.injEq] at h
    omega

theorem ParseUintLoop_ok (cs : List Char) : ∀ n v, n < 2 ^ 64 →
    ParseUintLoop cs n = (v, none) →
    (∀ c ∈ cs, 48 ≤ c.toNat ∧ c.toNat ≤ 57) ∧ v = decimalFrom n cs ∧ v < 2 ^ 64 := by
  induction cs with
  | nil =>
    intro n v hn h
    simp only [ParseUintLoop, Prod.mk.injEq, and_true] at h
    subst h
    exact ⟨by simp, rfl, hn⟩
  | cons c cs ih =>
    intro n v hn h
    cases hd : digitOf c with
    | none => simp [ParseUintLoop, hd] at h
    | some d =>
      simp only [ParseUintLoop, hd, maxUint64] at h
      split_ifs at h with h1 h2 h3
      · simp at h
      · simp at h
      · simp at h
      · obtain ⟨hc, hdv⟩ := digitOf_lt_ten c d hd (by omega)
        have hn10 : n * 10 % 2 ^ 64 = n * 10 := Nat.mod_eq_of_lt (by omega)
        rw [hn10] at h h3
        have hn1 : (n * 10 + d) % 2 ^ 64 = n * 10 + d := Nat.mod_eq_of_lt (by omega)
        rw [hn1] at h
        obtain ⟨ih1, ih2, ih3⟩ := ih (n * 10 + d) v (by omega) h
        refine ⟨?_, ?_, ih3⟩
        · intro x hx
          rcases List.mem_cons.mp hx with rfl | hx
          · exact hc
          · exact ih1 x hx
        · rw [decimalFrom_cons, ih2, hdv, Nat.mul_comm]

theorem ParseUintLoop_range (cs : List Char) : ∀ n v,
    ParseUintLoop cs n = (v, some NumError.ErrRange) → v = maxUint64 := by
  induction cs with
  | nil => intro n v h; simp [ParseUintLoop] at h
  | cons c cs ih =>
    intro n v h
    cases hd : digitOf c with
    | none => simp [ParseUintLoop, hd] at h
    | some d =>
      simp only [ParseUintLoop, hd] at h
      split_ifs at h with h1 h2 h3
      · simp at h
      · simp only [Prod.mk.injEq, and_true] at h; exact h.symm
      · simp only [Prod.mk.injEq, and_true] at h; exact h.symm
      · exact ih _ v h

theorem ParseUintLoop_complete (cs : List Char) : ∀ n,
    (∀ c ∈ cs, 48 ≤ c.toNat ∧ c.toNat ≤ 57) → decimalFrom n cs < 2 ^ 64 →
    ParseUintLoop cs n = (decimalFrom n cs, none) := by
  induction cs with
  | nil => intro n _ _; rfl
  | cons c cs ih =>
    intro n hds hlt
    have hc := hds c (List.mem_cons_self c cs)
    rw [decimalFrom_cons] at hlt ⊢
    have hle := le_decimalFrom cs (10 * n + (c.toNat - 48))
    have hn10 : n * 10 % 2 ^ 64 = n * 10 := Nat.mod_eq_of_lt (by omega)
    have hn1 : (n * 10 + (c.toNat - 48)) % 2 ^ 64 = n * 10 + (c.toNat - 48) :=
      Nat.mod_eq_of_lt (by omega)
    simp only [ParseUintLoop, digitOf_digit c hc, maxUint64, hn10, hn1]
    rw [if_neg (by omega), if_neg (by omega), if_neg (by omega), Nat.mul_comm n 10]
    exact ih _ (fun x hx => hds x (List.mem_cons_of_mem c hx)) hlt

theorem ParseUint_ok (body : List Char) (un : Nat) :
    ParseUint body = (un, none) ↔
      body ≠ [] ∧ (∀ c ∈ body, 48 ≤ c.toNat ∧ c.toNat ≤ 57) ∧
        un = decimalFrom 0 body ∧ un < 2 ^ 64 := by
  unfold ParseUint
  by_cases hb : body = []
  · simp [hb]
  · rw [if_neg hb]
    constructor
    · intro h
      exact ⟨hb, ParseUintLoop_ok body 0 un (by norm_num) h⟩
    · rintro ⟨_, hds, hv, hlt⟩
      rw [hv] at hlt ⊢
      exact ParseUintLoop_complete body 0 hds hlt

theorem ParseUint_range (body : List Char) (un : Nat)
    (h : ParseUint body = (un, some NumError.ErrRange)) : un = maxUint64 := by
  unfold ParseUint at h
  by_cases hb : body = []
  · simp [hb] at h
  · rw [if_neg hb] at h
    exact ParseUintLoop_range body 0 un h

theorem ParseInt_cons (s : String) (c : Char) (rest : List Char) (h : s.toList = c :: rest) :
    ParseInt s =
      ParseIntTail (if c = '+' then false else if c = '-' then true else false)
        (ParseUint (if c = '+' then rest else if c = '-' then rest else c :: rest)) := by
  unfold ParseInt ParseIntTail
  rw [h]

theorem ParseIntTail_ok (neg : Bool) (body : List Char) (v : Int) :
    ParseIntTail neg (ParseUint body) = (v, none) ↔
      body ≠ [] ∧ (∀ c ∈ body, 48 ≤ c.toNat ∧ c.toNat ≤ 57) ∧
        v = (if neg = true then -(decimalFrom 0 body : Int) else (decimalFrom 0 body : Int)) ∧
        -(2 ^ 63) ≤ v ∧ v < 2 ^ 63 := by
  constructor
  · intro h
    rcases hr : ParseUint body with ⟨un, e⟩
    rw [hr] at h
    cases e with
    | some e =>
      cases e with
      | ErrSyntax => simp [ParseIntTail] at h
      | ErrRange =>
        have hun := ParseUint_range body un hr
        subst hun
        cases neg <;> simp [ParseIntTail, maxUint64] at h
    | none =>
      obtain ⟨hb, hds, hv, hlt⟩ := (ParseUint_ok body un).mp hr
      refine ⟨hb, hds, ?_⟩
      rw [← hv]
      cases neg
      · simp only [ParseIntTail, ge_iff_le, true_and, Bool.false_eq_true, false_and,
          if_false] at h
        split_ifs at h with h1
        · simp at h
        · simp only [Prod.mk.injEq, and_true] at h
          unfold wrapInt64 at h
          simp only [Bool.false_eq_true, if_false]
          omega
      · simp only [ParseIntTail, ge_iff_le, Bool.true_eq_false, false_and, if_false,
          true_and, if_true] at h
        split_ifs at h with h1
        · simp at h
        · simp only [Prod.mk.injEq, and_true] at h
          unfold wrapInt64 at h
          simp only [if_true]
          omega
  · rintro ⟨hb, hds, hv, hlo, hhi⟩
    have hlt : decimalFrom 0 body < 2 ^ 64 := by
      cases neg <;> simp at hv <;> omega
    have hr : ParseUint body = (decimalFrom 0 body, none) :=
      (ParseUint_ok body _).mpr ⟨hb, hds, rfl, hlt⟩
    rw [hr]
    cases neg
    · simp only [Bool.false_eq_true, if_false] at hv
      simp only [ParseIntTail, ge_iff_le, true_and, Bool.false_eq_true, false_and, if_false]
      rw [if_neg (by omega)]
      simp only [Prod.mk.injEq, and_true]
      unfold wrapInt64
      omega
    · simp only [if_true] at hv
      simp only [ParseIntTail, ge_iff_le, Bool.true_eq_false, false_and, if_false,
        true_and, if_true]
      rw [if_neg (by omega)]
      simp only [Prod.mk.injEq, and_true]
      unfold wrapInt64
      omega

theorem not_digit_plus : ¬ (48 ≤ '+'.toNat ∧ '+'.toNat ≤ 57) := by decide

theorem not_digit_minus : ¬ (48 ≤ '-'.toNat ∧ '-'.toNat ≤ 57) := by decide

/-- `ParseInt` succeeds with value `v` exactly on the decimal texts of 64-bit integers. -/
theorem ParseInt_ok_iff (s : String) (v : Int) :
    ParseInt s = (v, none) ↔ DecimalInt64 s v := by
  unfold DecimalInt64
  simp only [isDigit_iff]
  cases hs : s.toList with
  | nil =>
    have : ParseInt s = (0, some NumError.ErrSyntax) := by
      unfold ParseInt; rw [hs]
    rw [this]
    constructor
    · intro h; simp at h
    · rintro ⟨sign, ds, h, _, hne, _⟩
      have := List.append_eq_nil.mp h.symm
      exact absurd this.2 hne
  | cons c rest =>
    rw [ParseInt_cons s c rest hs, ParseIntTail_ok]
    by_cases hp : c = '+'
    · subst hp
      simp only [if_true, Bool.false_eq_true, if_false]
      constructor
      · rintro ⟨hb, hds, hv, hr⟩
        exact ⟨['+'], rest, rfl, Or.inr (Or.inl rfl), hb, hds, by simpa using hv, hr⟩
      · rintro ⟨sign, ds, h, hsign, hne, hds, hv, hr⟩
        rcases hsign with rfl | rfl | rfl
        · simp only [List.nil_append] at h
          subst h
          exact absurd (hds _ (List.mem_cons_self _ _)) not_digit_plus
        · simp only [List.singleton_append, List.cons.injEq, true_and] at h
          subst h
          exact ⟨hne, hds, by simpa using hv, hr⟩
        · simp at h
    · by_cases hm : c = '-'
      · subst hm
        simp only [if_true, Char.reduceEq, if_false]
        constructor
        · rintro ⟨hb, hds, hv, hr⟩
          exact ⟨['-'], rest, rfl, Or.inr (Or.inr rfl), hb, hds, by simpa using hv, hr⟩
        · rintro ⟨sign, ds, h, hsign, hne, hds, hv, hr⟩
          rcases hsign with rfl | rfl | rfl
          · simp only [List.nil_append] at h
            subst h
            exact absurd (hds _ (List.mem_cons_self _ _)) not_digit_minus
          · simp at h
          · simp only [List.singleton_append, List.cons.injEq, true_and] at h
            subst h
            exact ⟨hne, hds, by simpa using hv, hr⟩
      · simp only [if_neg hp, if_neg hm, Bool.false_eq_true, if_false]
        constructor
        · rintro ⟨hb, hds, hv, hr⟩
          exact ⟨[], c :: rest, rfl, Or.inl rfl, hb, hds, by simpa using hv, hr⟩
        · rintro ⟨sign, ds, h, hsign, hne, hds, hv, hr⟩
          rcases hsign with rfl | rfl | rfl
          · simp only [List.nil_append] at h
            subst h
            exact ⟨hne, hds, by simpa using hv, hr⟩
          · simp only [List.singleton_append, List.cons.injEq] at h
            exact absurd h.1 hp
          · simp only [List.singleton_append, List.cons.injEq] at h
            exact absurd h.1 hm

theorem decimalFrom_append (n : Nat) (xs ys : List Char) :
    decimalFrom n (xs ++ ys) = decimalFrom (decimalFrom n xs) ys := by
  simp [decimalFrom, List.foldl_append]

theorem toNat_digitChar : ∀ d, d < 10 → (Char.ofNat (d + 48)).toNat = d + 48 := by
  decide

theorem formatDigits_acc (fuel : Nat) : ∀ u acc,
    formatDigits fuel u acc = formatDigits fuel u [] ++ acc := by
  induction fuel with
  | zero => intro u acc; rfl
  | succ fuel ih =>
    intro u acc
    simp only [formatDigits]
    split_ifs
    · rw [ih _ (_ :: acc), ih _ [_]]
      simp
    · rfl

theorem formatDigits_spec (fuel : Nat) : ∀ u, u < 10 ^ (fuel + 1) →
    formatDigits (fuel + 1) u [] ≠ [] ∧
      (∀ c ∈ formatDigits (fuel + 1) u [], 48 ≤ c.toNat ∧ c.toNat ≤ 57) ∧
      decimalFrom 0 (formatDigits (fuel + 1) u []) = u := by
  induction fuel with
  | zero =>
    intro u hu
    have hu10 : u < 10 := by simpa using hu
    have hc := toNat_digitChar u hu10
    simp only [formatDigits, ge_iff_le]
    rw [if_neg (by omega)]
    refine ⟨by simp, ?_, ?_⟩
    · intro c hcm
      rw [List.mem_singleton.mp hcm, hc]
      omega
    · simp only [decimalFrom, List.foldl_cons, List.foldl_nil, hc]
      omega
  | succ fuel ih =>
    intro u hu
    rw [formatDigits]
    split_ifs with h10
    · have hq : u / 10 < 10 ^ (fuel + 1) := by
        rw [Nat.div_lt_iff_lt_mul (by norm_num)]
        rw [pow_succ] at hu
        exact hu
      obtain ⟨_, ih2, ih3⟩ := ih (u / 10) hq
      have hc := toNat_digitChar (u % 10) (Nat.mod_lt _ (by norm_num))
      rw [formatDigits_acc]
      refine ⟨by simp, ?_, ?_⟩
      · intro c hcm
        rcases List.mem_append.mp hcm with hcm | hcm
        · exact ih2 c hcm
        · rw [List.mem_singleton.mp hcm, hc]
          omega
      · rw [decimalFrom_append, ih3]
        simp only [decimalFrom, List.foldl_cons, List.foldl_nil, hc]
        omega
    · have hc := toNat_digitChar u (by omega)
      refine ⟨by simp, ?_, ?_⟩
      · intro c hcm
        rw [List.mem_singleton.mp hcm, hc]
        omega
      · simp only [decimalFrom, List.foldl_cons, List.foldl_nil, hc]
        omega

/-- The decimal rendering of a 64-bit integer is a decimal text with that value. -/
theorem DecimalInt64_FormatInt (v : Int) (hlo : -(2 ^ 63) ≤ v) (hhi : v < 2 ^ 63) :
    DecimalInt64 (FormatInt v) v := by
  have hlt : v.natAbs < 10 ^ (19 + 1) := by
    have : v.natAbs ≤ 2 ^ 63 := by omega
    exact lt_of_le_of_lt this (by norm_num)
  obtain ⟨h1, h2, h3⟩ := formatDigits_spec 19 v.natAbs hlt
  refine ⟨if v < 0 then ['-'] else [], formatDigits 20 v.natAbs [], rfl, ?_, h1, ?_, ?_, hlo, hhi⟩
  · by_cases hv : v < 0
    · simp [hv]
    · simp [hv]
  · intro c hc
    exact (isDigit_iff c).mpr (h2 c hc)
  · rw [h3]
    by_cases hv : v < 0
    · simp only [hv, if_true]
      omega
    · simp only [hv, if_false]
      have : ¬ (([] : List Char) = ['-']) := by simp
      rw [if_neg this]
      omega

/-- Parsing the decimal rendering of a 64-bit integer gives the integer back. -/
theorem ParseInt_FormatInt (v : Int) (hlo : -(2 ^ 63) ≤ v) (hhi : v < 2 ^ 63) :
    ParseInt (FormatInt v) = (v, none) :=
  (ParseInt_ok_iff _ _).mpr (DecimalInt64_FormatInt v hlo hhi)

/-! ## The handlers -/

/-- C1: an id that is not the decimal text of a signed 64-bit integer (not an optional
sign followed by one or more digits, or out of range) is answered by `getAlbumByID` with
status 400 and the body `message: invalid album ID`, and no call is made on the store. -/
theorem getAlbumByID_invalid_id {σ : Type} (db : DB σ) (c : Context) (st : σ)
    (h : ¬ ∃ v, DecimalInt64 (c.Param "id") v) :
    getAlbumByID db c (World.start st) =
      ⟨st, [], [], [⟨400, Body.H [("message", "invalid album ID")]⟩]⟩ := by
  rcases hp : ParseInt (c.Param "id") with ⟨v, e⟩
  cases e with
  | none => exact absurd ⟨v, (ParseInt_ok_iff _ v).mp hp⟩ h
  | some e => simp [getAlbumByID, hp, World.IndentedJSON, World.start]

/-- Witness for C1: the id `12a` is no decimal text, and the request is answered with 400. -/
theorem getAlbumByID_invalid_id_witness :
    (¬ ∃ v, DecimalInt64 ((request "12a" (Except.error GoError.ErrNoRows)).Param "id") v) ∧
      getAlbumByID albumTable (request "12a" (Except.error GoError.ErrNoRows))
          (World.start [⟨12, "A", "B", 5⟩]) =
        ⟨[⟨12, "A", "B", 5⟩], [], [], [⟨400, Body.H [("message", "invalid album ID")]⟩]⟩ :=
  have hno : ¬ ∃ v, DecimalInt64 ((request "12a" (Except.error GoError.ErrNoRows)).Param "id") v := by
    rintro ⟨v, hv⟩
    have hp := (ParseInt_ok_iff _ v).mpr hv
    have he : (ParseInt "12a").2 = some NumError.ErrSyntax := by decide
    have hn : (ParseInt "12a").2 = none := by
      have : (request "12a" (Except.error GoError.ErrNoRows)).Param "id" = "12a" := rfl
      rw [this] at hp
      rw [hp]
    rw [hn] at he
    exact absurd he (by simp)
  ⟨hno, getAlbumByID_invalid_id albumTable _ _ hno⟩

/-- C2: when the id is the decimal text of the 64-bit integer `n` and the store serves the
album table, `getAlbumByID` answers 404 `album not found` if no row has id `n`, and 200
with exactly the row of id `n` (id, title, artist and price) if there is one. -/
theorem getAlbumByID_found_or_not {σ : Type} (db : DB σ) (table : σ → List Album)
    (hdb : ServesAlbumTable db table) (c : Context) (st : σ) (n : Int)
    (hid : DecimalInt64 (c.Param "id") n) :
    ((∀ r ∈ table st, r.ID ≠ n) →
        (getAlbumByID db c (World.start st)).written =
          [⟨404, Body.H [("message", "album not found")]⟩]) ∧
      (∀ r ∈ table st, r.ID = n → (∀ r' ∈ table st, r'.ID = n → r' = r) →
        (getAlbumByID db c (World.start st)).written = [⟨200, Body.album r⟩]) := by
  have hp := (ParseInt_ok_iff _ n).mpr hid
  have hl := hdb.lookup st n
  constructor
  · intro hnone
    have hf : (table st).find? (fun r => decide (r.ID = n)) = none := by
      rw [List.find?_eq_none]
      intro r hr
      simpa using hnone r hr
    rw [hf] at hl
    simp [getAlbumByID, hp, albumByID, World.QueryRow, World.start, hl, errorsIs,
      World.IndentedJSON]
  · intro r hr hrn huniq
    have hf : (table st).find? (fun r => decide (r.ID = n)) = some r := by
      cases hfind : (table st).find? (fun r => decide (r.ID = n)) with
      | none =>
        rw [List.find?_eq_none] at hfind
        exact absurd (by simpa using hrn) (hfind r hr)
      | some r' =>
        have h1 := List.find?_some hfind
        have h2 := List.mem_of_find?_eq_some hfind
        rw [huniq r' h2 (by simpa using h1)]
    rw [hf] at hl
    simp [getAlbumByID, hp, albumByID, World.QueryRow, World.start, hl, World.IndentedJSON]

/-- C4: when the artist query succeeds and yields no row, `getAlbumsByArtist` answers with
status 404 and the body `message: no albums found for artist` (and with nothing else). -/
theorem getAlbumsByArtist_no_rows {σ : Type} (db : DB σ) (c : Context) (st st' : σ)
    (h : db.Query st ("SELECT * FROM album WHERE artist ='" ++ c.Param "artist" ++ "'") [] =
      (st', Except.ok ⟨[], none⟩)) :
    (getAlbumsByArtist db c (World.start st)).written =
      [⟨404, Body.H [("message", "no albums found for artist")]⟩] := by
  simp [getAlbumsByArtist, World.Query, World.start, h, scanLoop, World.IndentedJSON]

/-- C5: when the request body does not bind as an `Album`, `postAlbum` answers with status
400 and the body `message: invalid JSON format`, and no call is made on the store. -/
theorem postAlbum_invalid_body {σ : Type} (db : DB σ) (c : Context) (st : σ) (err : GoError)
    (h : c.BindJSON = Except.error err) :
    postAlbum db c (World.start st) =
      ⟨st, [], [], [⟨400, Body.H [("message", "invalid JSON format")]⟩]⟩ := by
  simp [postAlbum, h, World.IndentedJSON, World.start]

theorem le_foldl_max (tbl : List Album) : ∀ m : Int,
    m ≤ tbl.foldl (fun m r => max m r.ID) m ∧
      ∀ r ∈ tbl, r.ID ≤ tbl.foldl (fun m r => max m r.ID) m := by
  induction tbl with
  | nil => intro m; simp
  | cons a tbl ih =>
    intro m
    obtain ⟨h1, h2⟩ := ih (max m a.ID)
    simp only [List.foldl_cons, List.mem_cons, forall_eq_or_imp]
    exact ⟨le_trans (le_max_left _ _) h1, le_trans (le_max_right _ _) h1, h2⟩

theorem lt_nextID (tbl : List Album) (r : Album) (hr : r ∈ tbl) : r.ID < nextID tbl := by
  have := (le_foldl_max tbl 0).2 r hr
  unfold nextID
  omega

/-- The reference store meets the contract of the album table. -/
theorem albumTable_serves : ServesAlbumTable albumTable (fun tbl => tbl) := by
  constructor
  · intro st id
    simp [albumTable]
  · intro st title artist price st' id h
    simp only [albumTable, if_true] at h
    split_ifs at h with hlt
    · simp only [Prod.mk.injEq, Except.ok.injEq, Result.mk.injEq] at h
      obtain ⟨h1, h2⟩ := h
      subst h1 h2
      refine ⟨rfl, ?_⟩
      intro r hr
      exact ne_of_lt (lt_nextID st r hr)
    · simp at h

/-- Witness for C2: the id `2` on a table without and with a row of id 2. -/
theorem getAlbumByID_found_or_not_witness :
    DecimalInt64 ((request "2" (Except.error GoError.ErrNoRows)).Param "id") 2 ∧
      (getAlbumByID albumTable (request "2" (Except.error GoError.ErrNoRows))
          (World.start [⟨1, "A", "B", 5⟩])).written =
        [⟨404, Body.H [("message", "album not found")]⟩] ∧
      (getAlbumByID albumTable (request "2" (Except.error GoError.ErrNoRows))
          (World.start [⟨1, "A", "B", 5⟩, ⟨2, "C", "D", 6⟩])).written =
        [⟨200, Body.album ⟨2, "C", "D", 6⟩⟩] :=
  have hid : DecimalInt64 ((request "2" (Except.error GoError.ErrNoRows)).Param "id") 2 :=
    (ParseInt_ok_iff _ _).mp (by decide)
  ⟨hid,
    (getAlbumByID_found_or_not albumTable (fun tbl => tbl) albumTable_serves _
      [⟨1, "A", "B", 5⟩] 2 hid).1 (by decide),
    (getAlbumByID_found_or_not albumTable (fun tbl => tbl) albumTable_serves _
      [⟨1, "A", "B", 5⟩, ⟨2, "C", "D", 6⟩] 2 hid).2 ⟨2, "C", "D", 6⟩ (by decide) rfl
      (by decide)⟩

/-- Witness for C4: no album by `NoSuchArtist` is stored. -/
theorem getAlbumsByArtist_no_rows_witness :
    albumTable.Query [⟨1, "A", "B", 5⟩]
        ("SELECT * FROM album WHERE artist ='" ++
          (request "NoSuchArtist" (Except.error GoError.ErrNoRows)).Param "artist" ++ "'") [] =
      ([⟨1, "A", "B", 5⟩], Except.ok ⟨[], none⟩) ∧
    (getAlbumsByArtist albumTable (request "NoSuchArtist" (Except.error GoError.ErrNoRows))
        (World.start [⟨1, "A", "B", 5⟩])).written =
      [⟨404, Body.H [("message", "no albums found for artist")]⟩] :=
  have h : albumTable.Query [⟨1, "A", "B", 5⟩]
        ("SELECT * FROM album WHERE artist ='" ++
          (request "NoSuchArtist" (Except.error GoError.ErrNoRows)).Param "artist" ++ "'") [] =
      ([⟨1, "A", "B", 5⟩], Except.ok ⟨[], none⟩) := by decide
  ⟨h, getAlbumsByArtist_no_rows albumTable _ _ _ h⟩

/-- Witness for C5: a body that ends before the JSON value is complete. -/
theorem postAlbum_invalid_body_witness :
    (request "" (Except.error (GoError.text "unexpected EOF"))).BindJSON =
        Except.error (GoError.text "unexpected EOF") ∧
      postAlbum albumTable (request "" (Except.error (GoError.text "unexpected EOF")))
          (World.start [⟨1, "A", "B", 5⟩]) =
        ⟨[⟨1, "A", "B", 5⟩], [], [], [⟨400, Body.H [("message", "invalid JSON format")]⟩]⟩ :=
  ⟨rfl, postAlbum_invalid_body albumTable _ _ _ rfl⟩

/-- C6: `postAlbum` ignores the id of the payload.  Two payloads with the same title,
artist and price leave the same world whatever their ids: the one store call is the insert
of title, artist and price, and when the insert succeeds with the store assigning `id`, the
answer is 201 with the title, artist and price of the payload and with that `id`. -/
theorem postAlbum_ignores_client_id {σ : Type} (db : DB σ) (c₁ c₂ : Context) (a₁ a₂ : Album)
    (st : σ) (h₁ : c₁.BindJSON = Except.ok a₁) (h₂ : c₂.BindJSON = Except.ok a₂)
    (ht : a₁.Title = a₂.Title) (ha : a₁.Artist = a₂.Artist) (hp : a₁.Price = a₂.Price) :
    postAlbum db c₂ (World.start st) = postAlbum db c₁ (World.start st) ∧
      (postAlbum db c₁ (World.start st)).calls =
        [Call.Exec "INSERT INTO album (title, artist, price) VALUES (?, ?, ?)"
          [Value.text a₁.Title, Value.text a₁.Artist, Value.float a₁.Price]] ∧
      ∀ st' id,
        db.Exec st "INSERT INTO album (title, artist, price) VALUES (?, ?, ?)"
            [Value.text a₁.Title, Value.text a₁.Artist, Value.float a₁.Price] =
          (st', Except.ok ⟨Except.ok id⟩) →
        (postAlbum db c₁ (World.start st)).written =
          [⟨201, Body.album ⟨id, a₁.Title, a₁.Artist, a₁.Price⟩⟩] := by
  obtain ⟨i₁, t₁, r₁, p₁⟩ := a₁
  obtain ⟨i₂, t₂, r₂, p₂⟩ := a₂
  simp only at ht ha hp
  subst ht ha hp
  refine ⟨?_, ?_, ?_⟩
  · simp only [postAlbum, h₁, h₂, addAlbum, World.Exec, World.start]
  · simp only [postAlbum, h₁, addAlbum, World.Exec, World.start]
    rcases db.Exec st "INSERT INTO album (title, artist, price) VALUES (?, ?, ?)"
        [Value.text t₁, Value.text r₁, Value.float p₁] with ⟨st', x⟩
    rcases x with e | ⟨l⟩
    · rfl
    · rcases l with e | id
      · rfl
      · rfl
  · intro st' id hx
    simp [postAlbum, h₁, addAlbum, World.Exec, World.start, hx, World.IndentedJSON]

/-- Witness for C6: the same album posted with the ids 0 and 77. -/
theorem postAlbum_ignores_client_id_witness :
    postAlbum albumTable (request "" (Except.ok ⟨77, "A", "B", 1092605706⟩))
        (World.start [⟨1, "C", "D", 6⟩]) =
      postAlbum albumTable (request "" (Except.ok ⟨0, "A", "B", 1092605706⟩))
        (World.start [⟨1, "C", "D", 6⟩]) ∧
    (postAlbum albumTable (request "" (Except.ok ⟨0, "A", "B", 1092605706⟩))
        (World.start [⟨1, "C", "D", 6⟩])).written =
      [⟨201, Body.album ⟨2, "A", "B", 1092605706⟩⟩] :=
  have h := postAlbum_ignores_client_id albumTable
    (request "" (Except.ok ⟨0, "A", "B", 1092605706⟩))
    (request "" (Except.ok ⟨77, "A", "B", 1092605706⟩))
    ⟨0, "A", "B", 1092605706⟩ ⟨77, "A", "B", 1092605706⟩ [⟨1, "C", "D", 6⟩] rfl rfl rfl rfl rfl
  ⟨h.1, h.2.2 [⟨1, "C", "D", 6⟩, ⟨2, "A", "B", 1092605706⟩] 2 (by decide)⟩

/-- C7, as the claim states it, fails twice.  Posted to an empty table with the client id
1, the album is answered with the assigned id 1, the very id the client supplied.  And on a
store whose price column rounds to two decimals, an album posted with the price 9.999 is
answered 201 with 9.999, while `getAlbumByID` with the assigned id then answers 200 with
the price 10.00. -/
theorem post_then_get_fails_as_stated :
    (postAlbum albumTable (request "" (Except.ok ⟨1, "A", "B", 1092605706⟩))
        (World.start [])).written =
      [⟨201, Body.album ⟨1, "A", "B", 1092605706⟩⟩] ∧
    (postAlbum (columnTable twoDecimals) (request "" (Except.ok ⟨0, "A", "B", 1092615143⟩))
        (World.start [])).written =
      [⟨201, Body.album ⟨1, "A", "B", 1092615143⟩⟩] ∧
    (getAlbumByID (columnTable twoDecimals) (request "1" (Except.error GoError.ErrNoRows))
        (World.start (postAlbum (columnTable twoDecimals)
          (request "" (Except.ok ⟨0, "A", "B", 1092615143⟩)) (World.start [])).store)).written =
      [⟨200, Body.album ⟨1, "A", "B", 1092616192⟩⟩] := by
  decide

/-- C7, amended: for every store that serves the album table (the by-id statement answers
with the row of that id, and a successful insert appends one row that holds exactly the
bound title, artist and price under an id no earlier row has), when the insert of a valid
payload succeeds with the store assigning the 64-bit `id`, `postAlbum` answers 201 with
that `id` (which the client-supplied id has no part in, and which may equal it), and
`getAlbumByID` on the store it left, asked for the decimal text of `id`, answers 200 with
`id` and the title, artist and price of the payload. -/
theorem post_then_get {σ : Type} (db : DB σ) (table : σ → List Album)
    (hdb : ServesAlbumTable db table) (c c' : Context) (a : Album) (st st' : σ) (id : Int)
    (hbind : c.BindJSON = Except.ok a)
    (hexec : db.Exec st "INSERT INTO album (title, artist, price) VALUES (?, ?, ?)"
        [Value.text a.Title, Value.text a.Artist, Value.float a.Price] =
      (st', Except.ok ⟨Except.ok id⟩))
    (hlo : -(2 ^ 63) ≤ id) (hhi : id < 2 ^ 63) (hid : c'.Param "id" = FormatInt id) :
    (postAlbum db c (World.start st)).written =
        [⟨201, Body.album ⟨id, a.Title, a.Artist, a.Price⟩⟩] ∧
      (getAlbumByID db c' (World.start (postAlbum db c (World.start st)).store)).written =
        [⟨200, Body.album ⟨id, a.Title, a.Artist, a.Price⟩⟩] := by
  have hpost : postAlbum db c (World.start st) =
      ⟨st', [Call.Exec "INSERT INTO album (title, artist, price) VALUES (?, ?, ?)"
          [Value.text a.Title, Value.text a.Artist, Value.float a.Price]], [],
        [⟨201, Body.album ⟨id, a.Title, a.Artist, a.Price⟩⟩]⟩ := by
    simp [postAlbum, hbind, addAlbum, World.Exec, World.start, hexec, World.IndentedJSON]
  rw [hpost]
  refine ⟨rfl, ?_⟩
  obtain ⟨htab, hfresh⟩ := hdb.insert st a.Title a.Artist a.Price st' id hexec
  have hp : ParseInt (c'.Param "id") = (id, none) := by
    rw [hid]
    exact ParseInt_FormatInt id hlo hhi
  have hl := hdb.lookup st' id
  have hf : (table st').find? (fun r => decide (r.ID = id)) =
      some ⟨id, a.Title, a.Artist, a.Price⟩ := by
    rw [htab, List.find?_append]
    have hnone : (table st).find? (fun r => decide (r.ID = id)) = none := by
      rw [List.find?_eq_none]
      intro r hr
      simpa using hfresh r hr
    rw [hnone]
    simp
  rw [hf] at hl
  simp [getAlbumByID, hp, albumByID, World.QueryRow, World.start, hl, World.IndentedJSON]

/-- Witness for C7 as amended: an album posted to a table of one row, then fetched as `2`. -/
theorem post_then_get_witness :
    (postAlbum albumTable (request "" (Except.ok ⟨1, "A", "B", 1092605706⟩))
        (World.start [⟨1, "C", "D", 6⟩])).written =
        [⟨201, Body.album ⟨2, "A", "B", 1092605706⟩⟩] ∧
      (getAlbumByID albumTable (request "2" (Except.error GoError.ErrNoRows))
          (World.start (postAlbum albumTable
            (request "" (Except.ok ⟨1, "A", "B", 1092605706⟩))
            (World.start [⟨1, "C", "D", 6⟩])).store)).written =
        [⟨200, Body.album ⟨2, "A", "B", 1092605706⟩⟩] :=
  post_then_get albumTable (fun tbl => tbl) albumTable_serves
    (request "" (Except.ok ⟨1, "A", "B", 1092605706⟩))
    (request "2" (Except.error GoError.ErrNoRows)) ⟨1, "A", "B", 1092605706⟩
    [⟨1, "C", "D", 6⟩] [⟨1, "C", "D", 6⟩, ⟨2, "A", "B", 1092605706⟩] 2 rfl (by decide)
    (by decide) (by decide) (by decide)

theorem scanLoop_ok (read : List Album) : ∀ albums,
    scanLoop (read.map Except.ok) albums = Except.ok (albums ++ read) := by
  induction read with
  | nil => intro albums; simp [scanLoop]
  | cons a read ih => intro albums; simp [scanLoop, ih]

theorem scanLoop_error (read : List Album) (err : GoError)
    (rest : List (Except GoError Album)) : ∀ albums,
    scanLoop (read.map Except.ok ++ Except.error err :: rest) albums = Except.error err := by
  induction read with
  | nil => intro albums; simp [scanLoop]
  | cons a read ih => intro albums; simp [scanLoop, ih]

theorem errorsIs_text (msg : String) : errorsIs (GoError.text msg) GoError.ErrNoRows = false := by
  simp [errorsIs]

/-- C8: a store failure is answered with status 500 and a message fixed by the failing step,
whatever the error `err` of the store says.  In `getAlbumsByArtist`: a failed query gives
`database query error`; a failed scan, after any rows `read` were read, and a row-iteration
error both give `error processing results`, with no album list.  In `getAlbumByID`: a scan
error other than `sql.ErrNoRows` gives `database error`.  In `postAlbum`: a failed insert
and a failed `LastInsertId` both give `could not add album`. -/
theorem store_failure_fixed_answer {σ : Type} (db : DB σ) (c : Context) (st st' : σ)
    (err : GoError) :
    (db.Query st ("SELECT * FROM album WHERE artist ='" ++ c.Param "artist" ++ "'") [] =
        (st', Except.error err) →
      (getAlbumsByArtist db c (World.start st)).written =
        [⟨500, Body.H [("message", "database query error")]⟩]) ∧
    (∀ (read : List Album) (rest : List (Except GoError Album)) (rowsErr : Option GoError),
      db.Query st ("SELECT * FROM album WHERE artist ='" ++ c.Param "artist" ++ "'") [] =
        (st', Except.ok ⟨read.map Except.ok ++ Except.error err :: rest, rowsErr⟩) →
      (getAlbumsByArtist db c (World.start st)).written =
        [⟨500, Body.H [("message", "error processing results")]⟩]) ∧
    (∀ read : List Album,
      db.Query st ("SELECT * FROM album WHERE artist ='" ++ c.Param "artist" ++ "'") [] =
        (st', Except.ok ⟨read.map Except.ok, some err⟩) →
      (getAlbumsByArtist db c (World.start st)).written =
        [⟨500, Body.H [("message", "error processing results")]⟩]) ∧
    (∀ id : Int, ParseInt (c.Param "id") = (id, none) →
      db.QueryRow st "SELECT * FROM album WHERE id = ?" [Value.int id] =
        (st', ⟨Except.error err⟩) →
      err ≠ GoError.ErrNoRows →
      (getAlbumByID db c (World.start st)).written =
        [⟨500, Body.H [("message", "database error")]⟩]) ∧
    (∀ a : Album, c.BindJSON = Except.ok a →
      db.Exec st "INSERT INTO album (title, artist, price) VALUES (?, ?, ?)"
          [Value.text a.Title, Value.text a.Artist, Value.float a.Price] =
        (st', Except.error err) →
      (postAlbum db c (World.start st)).written =
        [⟨500, Body.H [("message", "could not add album")]⟩]) ∧
    (∀ a : Album, c.BindJSON = Except.ok a →
      db.Exec st "INSERT INTO album (title, artist, price) VALUES (?, ?, ?)"
          [Value.text a.Title, Value.text a.Artist, Value.float a.Price] =
        (st', Except.ok ⟨Except.error err⟩) →
      (postAlbum db c (World.start st)).written =
        [⟨500, Body.H [("message", "could not add album")]⟩]) := by
  refine ⟨?_, ?_, ?_, ?_, ?_, ?_⟩
  · intro h
    simp [getAlbumsByArtist, World.Query, World.start, h, World.IndentedJSON, World.Printf]
  · intro read rest rowsErr h
    simp [getAlbumsByArtist, World.Query, World.start, h, scanLoop_error, World.IndentedJSON,
      World.Printf]
  · intro read h
    simp [getAlbumsByArtist, World.Query, World.start, h, scanLoop_ok, World.IndentedJSON,
      World.Printf]
  · intro id hp h hne
    simp [getAlbumByID, hp, albumByID, World.QueryRow, World.start, h, hne, errorsIs_text,
      World.IndentedJSON, World.Printf]
  · intro a hb h
    simp [postAlbum, hb, addAlbum, World.Exec, World.start, h, World.IndentedJSON,
      World.Printf]
  · intro a hb h
    simp [postAlbum, hb, addAlbum, World.Exec, World.start, h, World.IndentedJSON,
      World.Printf]

/-- Witness for C8: a refused connection, a row that cannot be scanned after one that
can, a lookup error that wraps `sql.ErrNoRows`, and a driver without `LastInsertId`. -/
theorem store_failure_fixed_answer_witness :
    (getAlbumsByArtist
        (fixedDB (Except.error (GoError.text "dial tcp 127.0.0.1:3306: connection refused"))
          ⟨Except.error GoError.ErrNoRows⟩ (Except.error GoError.ErrNoRows))
        (request "B" (Except.error GoError.ErrNoRows)) (World.start ())).written =
      [⟨500, Body.H [("message", "database query error")]⟩] ∧
    (getAlbumsByArtist
        (fixedDB (Except.ok ⟨[Except.ok ⟨1, "A", "B", 5⟩,
            Except.error (GoError.text "converting NULL to string is unsupported")], none⟩)
          ⟨Except.error GoError.ErrNoRows⟩ (Except.error GoError.ErrNoRows))
        (request "B" (Except.error GoError.ErrNoRows)) (World.start ())).written =
      [⟨500, Body.H [("message", "error processing results")]⟩] ∧
    (getAlbumByID
        (fixedDB (Except.error GoError.ErrNoRows)
          ⟨Except.error (GoError.wrap "driver: bad connection" GoError.ErrNoRows)⟩
          (Except.error GoError.ErrNoRows))
        (request "7" (Except.error GoError.ErrNoRows)) (World.start ())).written =
      [⟨500, Body.H [("message", "database error")]⟩] ∧
    (postAlbum
        (fixedDB (Except.error GoError.ErrNoRows) ⟨Except.error GoError.ErrNoRows⟩
          (Except.ok ⟨Except.error (GoError.text "LastInsertId is not supported")⟩))
        (request "" (Except.ok ⟨0, "A", "B", 5⟩)) (World.start ())).written =
      [⟨500, Body.H [("message", "could not add album")]⟩] :=
  ⟨(store_failure_fixed_answer _ _ () () _).1 rfl,
    (store_failure_fixed_answer _ _ () () _).2.1 [⟨1, "A", "B", 5⟩] [] none rfl,
    (store_failure_fixed_answer _ _ () () _).2.2.2.1 7 (by decide) rfl (by decide),
    (store_failure_fixed_answer _ _ () () _).2.2.2.2.2 ⟨0, "A", "B", 5⟩ rfl rfl⟩

/-- C9: whatever the request and the store, each handler writes exactly one response; its
status is 200, 404 or 500 for `getAlbumsByArtist`, 200, 400, 404 or 500 for `getAlbumByID`,
201, 400 or 500 for `postAlbum`; and unless the status is 200 (201 for `postAlbum`) the body
is a `gin.H` with the single field `message`, holding a non-empty string. -/
theorem one_response_per_request {σ : Type} (db : DB σ) (c : Context) (st : σ) :
    (∃ r, (getAlbumsByArtist db c (World.start st)).written = [r] ∧
        r.code ∈ [200, 404, 500] ∧
        (r.code ≠ 200 → ∃ m, r.obj = Body.H [("message", m)] ∧ m ≠ "")) ∧
    (∃ r, (getAlbumByID db c (World.start st)).written = [r] ∧
        r.code ∈ [200, 400, 404, 500] ∧
        (r.code ≠ 200 → ∃ m, r.obj = Body.H [("message", m)] ∧ m ≠ "")) ∧
    (∃ r, (postAlbum db c (World.start st)).written = [r] ∧
        r.code ∈ [201, 400, 500] ∧
        (r.code ≠ 201 → ∃ m, r.obj = Body.H [("message", m)] ∧ m ≠ "")) := by
  refine ⟨?_, ?_, ?_⟩
  · rcases hq : db.Query st
        ("SELECT * FROM album WHERE artist ='" ++ c.Param "artist" ++ "'") [] with ⟨st', q⟩
    rcases q with err | rows
    · exact ⟨⟨500, Body.H [("message", "database query error")]⟩,
        by simp [getAlbumsByArtist, World.Query, World.start, hq, World.IndentedJSON,
          World.Printf],
        by decide, fun _ => ⟨_, rfl, by decide⟩⟩
    · rcases hs : scanLoop rows.scans [] with err | albums
      · exact ⟨⟨500, Body.H [("message", "error processing results")]⟩,
          by simp [getAlbumsByArtist, World.Query, World.start, hq, hs, World.IndentedJSON,
            World.Printf],
          by decide, fun _ => ⟨_, rfl, by decide⟩⟩
      · rcases he : rows.Err with _ | err
        · by_cases hl : albums.length = 0
          · exact ⟨⟨404, Body.H [("message", "no albums found for artist")]⟩,
              by simp [getAlbumsByArtist, World.Query, World.start, hq, hs, he, hl,
                World.IndentedJSON],
              by decide, fun _ => ⟨_, rfl, by decide⟩⟩
          · exact ⟨⟨200, Body.albums albums⟩,
              by simp [getAlbumsByArtist, World.Query, World.start, hq, hs, he, hl,
                World.IndentedJSON],
              by simp, fun h => absurd rfl h⟩
        · exact ⟨⟨500, Body.H [("message", "error processing results")]⟩,
            by simp [getAlbumsByArtist, World.Query, World.start, hq, hs, he,
              World.IndentedJSON, World.Printf],
            by decide, fun _ => ⟨_, rfl, by decide⟩⟩
  · rcases hp : ParseInt (c.Param "id") with ⟨id, e⟩
    rcases e with _ | e
    · rcases hq : db.QueryRow st "SELECT * FROM album WHERE id = ?" [Value.int id]
        with ⟨st', row⟩
      rcases hrow : row.Scan with err | alb
      · by_cases hno : err = GoError.ErrNoRows
        · exact ⟨⟨404, Body.H [("message", "album not found")]⟩,
            by simp [getAlbumByID, hp, albumByID, World.QueryRow, World.start, hq, hrow, hno,
              errorsIs, World.IndentedJSON],
            by decide, fun _ => ⟨_, rfl, by decide⟩⟩
        · exact ⟨⟨500, Body.H [("message", "database error")]⟩,
            by simp [getAlbumByID, hp, albumByID, World.QueryRow, World.start, hq, hrow, hno,
              errorsIs_text, World.IndentedJSON, World.Printf],
            by decide, fun _ => ⟨_, rfl, by decide⟩⟩
      · exact ⟨⟨200, Body.album alb⟩,
          by simp [getAlbumByID, hp, albumByID, World.QueryRow, World.start, hq, hrow,
            World.IndentedJSON],
          by simp, fun h => absurd rfl h⟩
    · exact ⟨⟨400, Body.H [("message", "invalid album ID")]⟩,
        by simp [getAlbumByID, hp, World.start, World.IndentedJSON],
        by decide, fun _ => ⟨_, rfl, by decide⟩⟩
  · rcases hb : c.BindJSON with err | a
    · exact ⟨⟨400, Body.H [("message", "invalid JSON format")]⟩,
        by simp [postAlbum, hb, World.start, World.IndentedJSON],
        by decide, fun _ => ⟨_, rfl, by decide⟩⟩
    · rcases hx : db.Exec st "INSERT INTO album (title, artist, price) VALUES (?, ?, ?)"
          [Value.text a.Title, Value.text a.Artist, Value.float a.Price] with ⟨st', x⟩
      rcases x with err | ⟨l⟩
      · exact ⟨⟨500, Body.H [("message", "could not add album")]⟩,
          by simp [postAlbum, hb, addAlbum, World.Exec, World.start, hx, World.IndentedJSON,
            World.Printf],
          by decide, fun _ => ⟨_, rfl, by decide⟩⟩
      · rcases l with err | id
        · exact ⟨⟨500, Body.H [("message", "could not add album")]⟩,
            by simp [postAlbum, hb, addAlbum, World.Exec, World.start, hx,
              World.IndentedJSON, World.Printf],
            by decide, fun _ => ⟨_, rfl, by decide⟩⟩
        · exact ⟨⟨201, Body.album ⟨id, a.Title, a.Artist, a.Price⟩⟩,
            by simp [postAlbum, hb, addAlbum, World.Exec, World.start, hx,
              World.IndentedJSON],
            by simp, fun h => absurd rfl h⟩

theorem append_quote_injective (head a b tail : String) (h : head ++ a ++ tail = head ++ b ++ tail) :
    a = b := by
  have h' := congrArg String.data h
  simp only [String.data_append, List.append_assoc] at h'
  have h2 := List.append_cancel_right (List.append_cancel_left h')
  exact String.ext h2

/-- C10: `getAlbumsByArtist` makes one store call, a query whose text is
`SELECT * FROM album WHERE artist ='` followed by the artist and by `'`, with no bound
argument, so that requests with different artists send different statement texts;
`albumByID` makes one store call, with the constant text `SELECT * FROM album WHERE id = ?`
and the id as its only bound argument. -/
theorem statement_texts {σ : Type} (db : DB σ) (c c' : Context) (st : σ) (id : Int) :
    (getAlbumsByArtist db c (World.start st)).calls =
        [Call.Query ("SELECT * FROM album WHERE artist ='" ++ c.Param "artist" ++ "'") []] ∧
      (c.Param "artist" ≠ c'.Param "artist" →
        (getAlbumsByArtist db c (World.start st)).calls ≠
          (getAlbumsByArtist db c' (World.start st)).calls) ∧
      (albumByID db id (World.start st)).2.calls =
        [Call.QueryRow "SELECT * FROM album WHERE id = ?" [Value.int id]] := by
  have hcalls : ∀ c : Context, (getAlbumsByArtist db c (World.start st)).calls =
      [Call.Query ("SELECT * FROM album WHERE artist ='" ++ c.Param "artist" ++ "'") []] := by
    intro c
    simp only [getAlbumsByArtist, World.Query, World.start]
    rcases db.Query st ("SELECT * FROM album WHERE artist ='" ++ c.Param "artist" ++ "'") []
      with ⟨st', q⟩
    rcases q with err | rows
    · rfl
    · simp only
      rcases scanLoop rows.scans [] with err | albums
      · rfl
      · simp only
        rcases rows.Err with _ | err
        · simp only
          split_ifs <;> rfl
        · rfl
  refine ⟨hcalls c, ?_, ?_⟩
  · intro hne heq
    rw [hcalls c, hcalls c'] at heq
    simp only [List.cons.injEq, Call.Query.injEq, and_true] at heq
    exact hne (append_quote_injective _ _ _ _ heq)
  · simp only [albumByID, World.QueryRow, World.start]
    rcases (db.QueryRow st "SELECT * FROM album WHERE id = ?" [Value.int id]).2.Scan
      with err | alb
    · simp only
      split_ifs <;> rfl
    · rfl

/-- Witness for C10: the requests for `B` and for `C` send different statement texts. -/
theorem statement_texts_witness :
    (request "B" (Except.error GoError.ErrNoRows)).Param "artist" ≠
        (request "C" (Except.error GoError.ErrNoRows)).Param "artist" ∧
      (getAlbumsByArtist albumTable (request "B" (Except.error GoError.ErrNoRows))
          (World.start [])).calls ≠
        (getAlbumsByArtist albumTable (request "C" (Except.error GoError.ErrNoRows))
          (World.start [])).calls :=
  ⟨by decide,
    (statement_texts albumTable (request "B" (Except.error GoError.ErrNoRows))
      (request "C" (Except.error GoError.ErrNoRows)) [] 0).2.1 (by decide)⟩

theorem dropHead_append (head text : List Char) : dropHead head (head ++ text) = some text := by
  induction head with
  | nil => rfl
  | cons h head ih => simp [dropHead, ih]

theorem readLiteral_plain (a : List Char) : ∀ acc : List Char,
    (∀ ch ∈ a, ch ≠ quote ∧ ch ≠ backslash) →
    readLiteral (a ++ [quote]) acc = some (acc ++ a, []) := by
  induction a with
  | nil => intro acc _; simp [readLiteral]
  | cons x a ih =>
    intro acc h
    have hx := h x (List.mem_cons_self x a)
    have ha : ∀ ch ∈ a, ch ≠ quote ∧ ch ≠ backslash :=
      fun ch hch => h ch (List.mem_cons_of_mem x hch)
    have hstep : readLiteral (x :: (a ++ [quote])) acc = readLiteral (a ++ [quote]) (acc ++ [x]) := by
      cases a with
      | nil => simp [readLiteral, hx.1, hx.2]
      | cons y a => simp [readLiteral, hx.1, hx.2]
    rw [List.cons_append, hstep, ih (acc ++ [x]) ha]
    simp

/-- For an artist with no quote and no backslash, the reference store reads the statement
of `getAlbumsByArtist` as the comparison of the artist column with that artist. -/
theorem artistLiteral_plain (artist : String)
    (h : ∀ ch ∈ artist.toList, ch ≠ quote ∧ ch ≠ backslash) :
    artistLiteral ("SELECT * FROM album WHERE artist ='" ++ artist ++ "'") = some artist := by
  have htext : ("SELECT * FROM album WHERE artist ='" ++ artist ++ "'").toList =
      "SELECT * FROM album WHERE artist =".toList ++ (quote :: (artist.toList ++ [quote])) := by
    have h1 : "SELECT * FROM album WHERE artist ='".data =
        "SELECT * FROM album WHERE artist =".data ++ [quote] := by decide
    have h2 : "'".data = [quote] := by decide
    rw [String.toList, String.data_append, String.data_append, h1, h2, String.toList,
      String.toList]
    simp
  unfold artistLiteral
  rw [htext, dropHead_append]
  simp only [if_true]
  rw [readLiteral_plain artist.toList [] h]
  simp

/-- For an artist with no quote and no backslash, `getAlbumsByArtist` on the reference
store answers 200 with exactly the stored albums of that artist, when there is one. -/
theorem getAlbumsByArtist_plain_artist (c : Context) (tbl : List Album)
    (h : ∀ ch ∈ (c.Param "artist").toList, ch ≠ quote ∧ ch ≠ backslash)
    (hsome : ∃ r ∈ tbl, r.Artist = c.Param "artist") :
    (getAlbumsByArtist albumTable c (World.start tbl)).written =
      [⟨200, Body.albums (tbl.filter (fun r => decide (r.Artist = c.Param "artist")))⟩] := by
  obtain ⟨r, hr, hra⟩ := hsome
  have hmem : r ∈ tbl.filter (fun r => decide (r.Artist = c.Param "artist")) := by
    simp [List.mem_filter, hr, hra]
  have hlen : (tbl.filter (fun r => decide (r.Artist = c.Param "artist"))).length ≠ 0 := by
    intro h0
    rw [List.length_eq_zero] at h0
    rw [h0] at hmem
    exact absurd hmem (List.not_mem_nil r)
  simp only [getAlbumsByArtist, World.Query, World.start, albumTable, artistLiteral_plain _ h,
    scanLoop_ok, List.nil_append, if_neg hlen, World.IndentedJSON]

/-- C3 at a failing input.  An album by `O'Brien` is posted to a table that holds one by
`John Coltrane`.  Asked for `John Coltrane`, `getAlbumsByArtist` answers 200 with that
album; asked for `O'Brien`, it sends a statement whose string literal ends after `O`,
the store rejects the text, and the answer is 500 although an album by that artist is
stored. -/
theorem getAlbumsByArtist_quote_in_artist :
    (postAlbum albumTable (request "" (Except.ok ⟨0, "Live", "O'Brien", 1092605706⟩))
        (World.start [⟨1, "Blue Train", "John Coltrane", 1113587712⟩])).store =
      [⟨1, "Blue Train", "John Coltrane", 1113587712⟩, ⟨2, "Live", "O'Brien", 1092605706⟩] ∧
    (getAlbumsByArtist albumTable (request "John Coltrane" (Except.error GoError.ErrNoRows))
        (World.start [⟨1, "Blue Train", "John Coltrane", 1113587712⟩,
          ⟨2, "Live", "O'Brien", 1092605706⟩])).written =
      [⟨200, Body.albums [⟨1, "Blue Train", "John Coltrane", 1113587712⟩]⟩] ∧
    (getAlbumsByArtist albumTable (request "O'Brien" (Except.error GoError.ErrNoRows))
        (World.start [⟨1, "Blue Train", "John Coltrane", 1113587712⟩,
          ⟨2, "Live", "O'Brien", 1092605706⟩])).calls =
      [Call.Query "SELECT * FROM album WHERE artist ='O'Brien'" []] ∧
    (getAlbumsByArtist albumTable (request "O'Brien" (Except.error GoError.ErrNoRows))
        (World.start [⟨1, "Blue Train", "John Coltrane", 1113587712⟩,
          ⟨2, "Live", "O'Brien", 1092605706⟩])).written =
      [⟨500, Body.H [("message", "database query error")]⟩] := by
  decide

/-- Sample runs of `ParseInt`: a negative number, the two ends of the range, one past the
upper end, an underscore, a lone sign and the empty text. -/
theorem ParseInt_samples :
    ParseInt "-120" = (-120, none) ∧
      ParseInt "9223372036854775807" = (2 ^ 63 - 1, none) ∧
      ParseInt "-9223372036854775808" = (-(2 ^ 63), none) ∧
      ParseInt "9223372036854775808" = (2 ^ 63 - 1, some NumError.ErrRange) ∧
      ParseInt "1_0" = (0, some NumError.ErrSyntax) ∧
      ParseInt "+" = (0, some NumError.ErrSyntax) ∧
      ParseInt "" = (0, some NumError.ErrSyntax) := by
  decide

end AlbumService
